import Mathlib

/-!
Verification development for the wa-svc messaging gateway.

Shallow embedding of the service state machine (internal/service/state),
the service manager operations (internal/service/manager.go), the webhook
emitter (internal/webhook), the message-upsert discipline of the store, and
the ingest handlers, together with theorems settling the specification
claims about them.
-/

namespace WaSvc

/-- Connection states of the WhatsApp service, from the `State` constants in
internal/service (part_009): unauthenticated, pairing, connecting, connected,
disconnected, error. -/
inductive ServiceState where
  | unauthenticated
  | pairing
  | connecting
  | connected
  | disconnected
  | errorState
  deriving DecidableEq, Repr

/-- Go `State.IsReady`: true iff the service is in the connected state
(`return s == StateConnected`). -/
def ServiceState.IsReady (s : ServiceState) : Bool :=
  s == ServiceState.connected

/-- The `StateMachine` struct: current state, last error (modelled as an
optional message string) and the stored QR code. The mutex is not modelled;
each method below is the whole critical section it guards. -/
structure StateMachine where
  state : ServiceState
  lastError : Option String
  qrCode : String
  deriving DecidableEq, Repr

/-- Go `NewStateMachine`: starts unauthenticated with no QR code and no error. -/
def StateMachine.new : StateMachine :=
  { state := ServiceState.unauthenticated, lastError := none, qrCode := "" }

/-- Go `StateMachine.SetState`: transition to `newState`; clears the QR code
unless the new state is pairing, and clears the last error unless the new
state is the error state. -/
def StateMachine.SetState (sm : StateMachine) (newState : ServiceState) : StateMachine :=
  { state := newState
    qrCode := if newState ≠ ServiceState.pairing then "" else sm.qrCode
    lastError := if newState ≠ ServiceState.errorState then none else sm.lastError }

/-- Go `StateMachine.SetError`: enter the error state recording the error and
clearing the QR code. -/
def StateMachine.SetError (_sm : StateMachine) (err : String) : StateMachine :=
  { state := ServiceState.errorState, lastError := some err, qrCode := "" }

/-- Go `StateMachine.SetQRCode`: store the QR code and move to pairing in the
same critical section. -/
def StateMachine.SetQRCode (sm : StateMachine) (code : String) : StateMachine :=
  { sm with qrCode := code, state := ServiceState.pairing }

/-- Go `StateMachine.ClearQRCode`: clear the stored QR code. -/
def StateMachine.ClearQRCode (sm : StateMachine) : StateMachine :=
  { sm with qrCode := "" }

/-- Go `StateMachine.QRCode`: the stored QR code when pairing, empty otherwise. -/
def StateMachine.QRCodeGet (sm : StateMachine) : String :=
  if sm.state = ServiceState.pairing then sm.qrCode else ""

/-- The invariant of claim C10: a non-empty stored QR code implies the state
machine is pairing. -/
def qrInv (sm : StateMachine) : Prop :=
  sm.qrCode ≠ "" → sm.state = ServiceState.pairing

/-! ## Webhook emitter (internal/webhook, part_008) -/

/-- A byte string (Go `[]byte`); every entry is a byte value `< 256`. -/
abbrev Bytes := List Nat

/-- A webhook event envelope (`webhook.Event`): type tag, UTC timestamp in
seconds, and an opaque serialised data payload. -/
structure WebhookEvent where
  type : String
  timestampSec : Nat
  data : String
  deriving DecidableEq, Repr

/-- Go `webhook.Config`: URL, shared secret, retry bound and request timeout.
`maxRetries` and `timeoutSecs` are Go `int`s, hence `Int`. -/
structure WebhookConfig where
  url : String
  secret : String
  maxRetries : Int
  timeoutSecs : Int
  deriving DecidableEq, Repr

/-- Go `NewEmitter` default: a non-positive `MaxRetries` becomes 3. -/
def effectiveMaxRetries (cfg : WebhookConfig) : Nat :=
  if cfg.maxRetries ≤ 0 then 3 else cfg.maxRetries.toNat

/-- The emitter queue capacity (`make(chan *queuedEvent, 1000)`). -/
def queueCapacity : Nat := 1000

/-- Go `Emitter.Emit`: returns immediately when no URL is configured; otherwise
enqueues when the queue has room and drops (second component `true`) when it
is full, never blocking. The channel is modelled as the list of pending
events. -/
def Emit (cfg : WebhookConfig) (queue : List WebhookEvent) (ev : WebhookEvent) :
    List WebhookEvent × Bool :=
  if cfg.url = "" then (queue, false)
  else if queue.length < queueCapacity then (queue ++ [ev], false)
  else (queue, true)

/-- The sleep before retry number `attempt` in `Emitter.deliver`:
`2^(attempt-1)` seconds, capped at 30. -/
def backoffSecs (attempt : Nat) : Nat :=
  let b := 2 ^ (attempt - 1)
  if b > 30 then 30 else b

/-- The success criterion of `Emitter.send`: an HTTP status in `[200, 300)`;
`none` is a transport failure. -/
def respOk : Option Nat → Bool
  | some code => decide (200 ≤ code) && decide (code < 300)
  | none => false

/-- The retry loop of `Emitter.deliver`, with `remaining` iterations left and
the current attempt number: sleeps `backoffSecs attempt` before every attempt
except attempt 0, stops at the first success. Returns (delivered, attempts
made, sleeps performed in seconds). `resp i` is the outcome of the `i`-th
HTTP request. -/
def deliverLoop (resp : Nat → Option Nat) : Nat → Nat → Bool × Nat × List Nat
  | 0, _ => (false, 0, [])
  | remaining + 1, attempt =>
    let pre : List Nat := if attempt = 0 then [] else [backoffSecs attempt]
    if respOk (resp attempt) then (true, 1, pre)
    else
      let r := deliverLoop resp remaining (attempt + 1)
      (r.1, r.2.1 + 1, pre ++ r.2.2)

/-- Go `Emitter.deliver` for a freshly queued event (`retries = 0`): the loop
runs attempts `0 .. maxRetries`. -/
def deliver (resp : Nat → Option Nat) (maxRetries : Nat) : Bool × Nat × List Nat :=
  deliverLoop resp (maxRetries + 1) 0

/-- The lowercase hexadecimal alphabet of `encoding/hex` (its `hextable`
constant), as the list of characters of that string. -/
def hexDigitChars : List Char := "0123456789abcdef".data

/-- One nibble encoded as its lowercase hex character. -/
def hexDigit (n : Nat) : Char := hexDigitChars.getD n '0'

/-- Go `hex.EncodeToString` character stream: each byte becomes its high nibble
then its low nibble. -/
def hexEncodeList (bs : Bytes) : List Char :=
  bs.foldr (fun b acc => hexDigit (b / 16) :: hexDigit (b % 16) :: acc) []

/-- Go `hex.EncodeToString`. -/
def hexEncode (bs : Bytes) : String :=
  String.mk (hexEncodeList bs)

/-- Go `computeHMAC`: `"sha256=" + hex(HMAC-SHA256(secret, payload))`. The
HMAC-SHA256 primitive comes from Go's crypto library and is a parameter. -/
def computeHMAC (hmacSha256 : String → Bytes → Bytes) (payload : Bytes)
    (secret : String) : String :=
  "sha256=" ++ hexEncode (hmacSha256 secret payload)

/-- The HTTP POST built by `Emitter.send`: JSON content type, user agent, the
payload as body, and the signature header when a secret is configured. -/
structure HTTPRequest where
  body : Bytes
  contentType : String
  userAgent : String
  signature : Option String
  deriving Repr

/-- Go `Emitter.send` request construction: body is the payload bytes; the
`X-Webhook-Signature` header is attached iff `cfg.secret` is non-empty. -/
def sendRequest (hmacSha256 : String → Bytes → Bytes) (cfg : WebhookConfig)
    (payload : Bytes) : HTTPRequest :=
  { body := payload
    contentType := "application/json"
    userAgent := "wasvc-webhook/1.0"
    signature :=
      if cfg.secret ≠ "" then some (computeHMAC hmacSha256 payload cfg.secret)
      else none }

/-! ## Store: message rows and the upsert discipline -/

/-- A row of the `messages` table (schema documentation, part_000):
identity, denormalised names, content, media metadata and download
tracking. -/
structure MessageRow where
  chatJid : String
  chatName : String
  msgId : String
  senderJid : String
  senderName : String
  ts : Nat
  fromMe : Bool
  text : String
  mediaType : String
  mediaCaption : String
  filename : String
  mimeType : String
  directPath : String
  mediaKey : Bytes
  fileSha256 : Bytes
  fileEncSha256 : Bytes
  fileLength : Nat
  localPath : String
  downloadedAt : Nat
  deriving DecidableEq, Repr

/-- Go `store.UpsertMessageParams` with the field set used by the callers in
internal/service/manager.go; omitted fields keep Go's zero values, mirrored
here as defaults. -/
structure UpsertMessageParams where
  chatJid : String := ""
  chatName : String := ""
  msgId : String := ""
  senderJid : String := ""
  senderName : String := ""
  ts : Nat := 0
  fromMe : Bool := false
  text : String := ""
  mediaType : String := ""
  mediaCaption : String := ""
  filename : String := ""
  mimeType : String := ""
  directPath : String := ""
  mediaKey : Bytes := []
  fileSha256 : Bytes := []
  fileEncSha256 : Bytes := []
  fileLength : Nat := 0
  deriving DecidableEq, Repr

/-- Modelled from the spec: the media-field merge of the message upsert.
The store implementation (internal/store) is absent from src/; this follows
§4.3 "for every media field: keep the existing value if the incoming value
is empty/zero-length; otherwise replace" and the
`ON CONFLICT ... DO UPDATE SET ... CASE` pattern shown in the schema
documentation (part_000). -/
def mergeStr (old new : String) : String := if new = "" then old else new

/-- Modelled from the spec: merge for BLOB media fields
(`length(excluded.col) > 0`). -/
def mergeBytes (old new : Bytes) : Bytes := if new = [] then old else new

/-- Modelled from the spec: merge for the numeric byte-length field. -/
def mergeLen (old new : Nat) : Nat := if new = 0 then old else new

/-- The insert branch of the message upsert: a fresh row from the
parameters, with download tracking empty. -/
def insertRow (p : UpsertMessageParams) : MessageRow :=
  { chatJid := p.chatJid, chatName := p.chatName, msgId := p.msgId
    senderJid := p.senderJid, senderName := p.senderName
    ts := p.ts, fromMe := p.fromMe, text := p.text
    mediaType := p.mediaType, mediaCaption := p.mediaCaption
    filename := p.filename, mimeType := p.mimeType
    directPath := p.directPath, mediaKey := p.mediaKey
    fileSha256 := p.fileSha256, fileEncSha256 := p.fileEncSha256
    fileLength := p.fileLength, localPath := "", downloadedAt := 0 }

/-- Modelled from the spec: the conflict branch of the message upsert.
Text, timestamp, from-me flag and the denormalised names are replaced;
every media metadata field keeps the existing value when the incoming one
is empty or zero-length (§4.3, invariant I6). -/
def updateRow (old : MessageRow) (p : UpsertMessageParams) : MessageRow :=
  { old with
    chatName := p.chatName, senderName := p.senderName
    ts := p.ts, fromMe := p.fromMe, text := p.text
    mediaType := mergeStr old.mediaType p.mediaType
    mediaCaption := mergeStr old.mediaCaption p.mediaCaption
    filename := mergeStr old.filename p.filename
    mimeType := mergeStr old.mimeType p.mimeType
    directPath := mergeStr old.directPath p.directPath
    mediaKey := mergeBytes old.mediaKey p.mediaKey
    fileSha256 := mergeBytes old.fileSha256 p.fileSha256
    fileEncSha256 := mergeBytes old.fileEncSha256 p.fileEncSha256
    fileLength := mergeLen old.fileLength p.fileLength }

/-- Go `UpsertMessage`: insert or merge under the `(chat_jid, msg_id)` key,
depending on whether a row already exists. -/
def upsertMessage : Option MessageRow → UpsertMessageParams → MessageRow
  | none, p => insertRow p
  | some old, p => updateRow old p

/-! ## Message parsing and the ingest handlers (manager.go) -/

/-- Media metadata carried by a message event and extracted by the parser
(internal/wa, per the architecture documentation): kind, caption, filename,
MIME type, direct path, media key, both SHA-256 hashes, byte length. -/
structure ParsedMedia where
  type : String
  caption : String
  filename : String
  mimeType : String
  directPath : String
  mediaKey : Bytes
  fileSha256 : Bytes
  fileEncSha256 : Bytes
  fileLength : Nat
  deriving DecidableEq, Repr

/-- A parsed message as consumed by the ingest handlers (the result shape of
`wa.ParseLiveMessage` / `wa.ParseHistoryMessage`). -/
structure ParsedMessage where
  id : String
  chat : String
  senderJid : String
  pushName : String
  ts : Nat
  fromMe : Bool
  text : String
  media : Option ParsedMedia
  deriving DecidableEq, Repr

/-- The upsert parameters built by `Manager.handleIncomingMessage`
(manager.go lines 379-389): besides the scalar fields it passes only
`MediaType`; caption, filename, MIME type, direct path, media key, the
hashes and the byte length are left at their zero values. -/
def liveUpsertParams (pm : ParsedMessage) (chatName : String) :
    UpsertMessageParams :=
  { chatJid := pm.chat, chatName := chatName, msgId := pm.id
    senderJid := pm.senderJid, senderName := pm.pushName
    ts := pm.ts, fromMe := pm.fromMe, text := pm.text
    mediaType := match pm.media with | some m => m.type | none => "" }

/-- The upsert parameters built by `Manager.handleHistorySync`
(manager.go lines 436-445): no media field is passed at all, `MediaType`
included. -/
def historyUpsertParams (pm : ParsedMessage) (chatName : String) :
    UpsertMessageParams :=
  { chatJid := pm.chat, chatName := chatName, msgId := pm.id
    senderJid := pm.senderJid, senderName := pm.pushName
    ts := pm.ts, fromMe := pm.fromMe, text := pm.text }

/-! ## Manager operations (manager.go) -/

/-- Failures surfaced by the manager operations modelled here. -/
inductive MgrErr where
  | notReady (st : ServiceState)
  | clientUnavailable
  | invalidRecipient
  | uploadFailed
  | sendFailed
  | mediaLookupFailed
  | noMediaMetadata
  | downloadFailed
  deriving DecidableEq, Repr

/-- Externally visible calls a manager operation performs, in order:
protocol-client invocations and store writes. -/
inductive MgrEffect where
  | clientSendText (toJid text : String)
  | clientUpload
  | clientSendMedia
  | clientDownload (path : String)
  | storeUpsertChat (chat : String)
  | storeUpsertMessage (chat msgId : String)
  | storeMarkDownloaded (chat msgId path : String) (whenSec : Nat)
  deriving DecidableEq, Repr

/-- Go `Manager.SendText`: the ready-state guard comes first; then client
availability, recipient resolution, the client send, and on success the
chat and message store writes. `resolved` is the result of
`wa.ParseUserOrJID`; `sendResult` the message id returned by the client. -/
def sendText (st : ServiceState) (clientOpen : Bool) (resolved : Option String)
    (sendResult : Option String) (text : String) :
    Except MgrErr String × List MgrEffect :=
  if ¬ st.IsReady then (Except.error (MgrErr.notReady st), [])
  else if ¬ clientOpen then (Except.error MgrErr.clientUnavailable, [])
  else
    match resolved with
    | none => (Except.error MgrErr.invalidRecipient, [])
    | some toJid =>
      match sendResult with
      | none => (Except.error MgrErr.sendFailed, [MgrEffect.clientSendText toJid text])
      | some msgId =>
        (Except.ok msgId,
         [MgrEffect.clientSendText toJid text,
          MgrEffect.storeUpsertChat toJid,
          MgrEffect.storeUpsertMessage toJid msgId])

/-- Go `Manager.SendFile`: the ready-state guard comes first; then client
availability, recipient resolution, upload, typed-media send, and on success
the store writes. -/
def sendFile (st : ServiceState) (clientOpen : Bool) (resolved : Option String)
    (uploadOk : Bool) (sendResult : Option String) :
    Except MgrErr String × List MgrEffect :=
  if ¬ st.IsReady then (Except.error (MgrErr.notReady st), [])
  else if ¬ clientOpen then (Except.error MgrErr.clientUnavailable, [])
  else
    match resolved with
    | none => (Except.error MgrErr.invalidRecipient, [])
    | some toJid =>
      if ¬ uploadOk then (Except.error MgrErr.uploadFailed, [MgrEffect.clientUpload])
      else
        match sendResult with
        | none =>
          (Except.error MgrErr.sendFailed,
           [MgrEffect.clientUpload, MgrEffect.clientSendMedia])
        | some msgId =>
          (Except.ok msgId,
           [MgrEffect.clientUpload, MgrEffect.clientSendMedia,
            MgrEffect.storeUpsertChat toJid,
            MgrEffect.storeUpsertMessage toJid msgId])

/-- Go `store.MediaDownloadInfo`: media metadata and download tracking of a
message row under the unique key. -/
structure MediaDownloadInfo where
  chatJid : String
  chatName : String
  msgId : String
  mediaType : String
  filename : String
  mimeType : String
  directPath : String
  mediaKey : Bytes
  fileSha256 : Bytes
  fileEncSha256 : Bytes
  fileLength : Nat
  localPath : String
  downloadedAt : Nat
  deriving DecidableEq, Repr

/-- Go `Manager.DownloadMediaResult`. -/
structure DownloadMediaResult where
  chatJid : String
  msgId : String
  mediaType : String
  mimeType : String
  localPath : String
  byteCount : Nat
  downloadedAt : Nat
  deriving DecidableEq, Repr

/-- Go `Manager.DownloadMedia` (manager.go lines 636-694): ready guard, client
availability, metadata lookup, the no-downloadable-media check
(`MediaType == "" || DirectPath == "" || len(MediaKey) == 0`); when
`LocalPath` is already set the stored info is returned with no client call;
otherwise the client download runs against the resolved target path and on
success the row is marked downloaded at `now`. `downloadBytes` is the byte
count returned by `DownloadMediaToFile`, `none` on failure. -/
def downloadMedia (st : ServiceState) (clientOpen : Bool)
    (lookup : Option MediaDownloadInfo) (targetPath : String)
    (downloadBytes : Option Nat) (now : Nat) :
    Except MgrErr DownloadMediaResult × List MgrEffect :=
  if ¬ st.IsReady then (Except.error (MgrErr.notReady st), [])
  else if ¬ clientOpen then (Except.error MgrErr.clientUnavailable, [])
  else
    match lookup with
    | none => (Except.error MgrErr.mediaLookupFailed, [])
    | some info =>
      if info.mediaType = "" ∨ info.directPath = "" ∨ info.mediaKey = [] then
        (Except.error MgrErr.noMediaMetadata, [])
      else if info.localPath ≠ "" then
        (Except.ok
          { chatJid := info.chatJid, msgId := info.msgId
            mediaType := info.mediaType, mimeType := info.mimeType
            localPath := info.localPath, byteCount := info.fileLength
            downloadedAt := info.downloadedAt }, [])
      else
        match downloadBytes with
        | none =>
          (Except.error MgrErr.downloadFailed, [MgrEffect.clientDownload targetPath])
        | some n =>
          (Except.ok
            { chatJid := info.chatJid, msgId := info.msgId
              mediaType := info.mediaType, mimeType := info.mimeType
              localPath := targetPath, byteCount := n, downloadedAt := now },
           [MgrEffect.clientDownload targetPath,
            MgrEffect.storeMarkDownloaded info.chatJid info.msgId targetPath now])

/-- Modelled from the spec: `store.MarkMediaDownloaded` sets `local_path`
and `downloaded_at` on the message row under the unique key (§4.3 "media
lookup and completion"; the store implementation is absent from src/). -/
def markMediaDownloaded (row : MessageRow) (path : String) (whenSec : Nat) :
    MessageRow :=
  { row with localPath := path, downloadedAt := whenSec }

/-! ## Sync worker event dispatch (manager.go runSyncWorker) -/

/-- The protocol events handled by the sync worker's event handler. -/
inductive WAEvent where
  | message (pm : ParsedMessage)
  | connected
  | disconnected
  | historySync (msgs : List ParsedMessage)
  deriving DecidableEq, Repr

/-- What a dispatch step may do besides changing state: ingest work, or a
reconnection attempt (client re-invocation). The embedded handler never
produces `reconnectAttempt`; the constructor exists so its absence is a
provable statement. -/
inductive SyncAction where
  | ingestLive (pm : ParsedMessage)
  | ingestHistory (msgs : List ParsedMessage)
  | reconnectAttempt
  deriving DecidableEq, Repr

/-- The event-handler switch registered by `Manager.runSyncWorker`
(manager.go lines 333-346): messages and history syncs are ingested;
`Connected` and `Disconnected` only set the corresponding state. -/
def syncWorkerStep (sm : StateMachine) (e : WAEvent) :
    StateMachine × List SyncAction :=
  match e with
  | WAEvent.message pm => (sm, [SyncAction.ingestLive pm])
  | WAEvent.connected => (sm.SetState ServiceState.connected, [])
  | WAEvent.disconnected => (sm.SetState ServiceState.disconnected, [])
  | WAEvent.historySync msgs => (sm, [SyncAction.ingestHistory msgs])

/-! ## Contact display names -/

/-- A row of the `contacts` table; every column is written as a (possibly
empty) string by `UpsertContact`, never as SQL NULL. -/
structure ContactRow where
  jid : String
  phone : String
  pushName : String
  fullName : String
  firstName : String
  businessName : String
  deriving DecidableEq, Repr

/-- The `display_name` of the Contact Search query in the schema
documentation (part_000 lines 801-810):
`COALESCE(a.alias, c.full_name, c.push_name, c.jid)` over a LEFT JOIN with
`contact_aliases`. COALESCE skips only SQL NULL; the alias is NULL exactly
when no alias row exists, and the contact columns are non-NULL strings, so
an empty `full_name` is returned as-is and `push_name`, `business_name`,
`first_name` and the jid are never reached past a non-NULL `full_name`. -/
def contactSearchDisplayName (aliasRow : Option String) (c : ContactRow) : String :=
  match aliasRow with
  | some a => a
  | none => c.fullName

/-- Modelled from the spec, for comparison: the display rule of §4.3 / P6 —
the first non-empty value among local alias, full name, push name, business
name, first name, address string, empty strings counting as absent. -/
def displayNameSpec (aliasRow : Option String) (c : ContactRow) : String :=
  let pick : String → String → String := fun v w => if v = "" then w else v
  pick (aliasRow.getD "")
    (pick c.fullName
      (pick c.pushName
        (pick c.businessName
          (pick c.firstName c.jid))))

/-! ## Concrete example data used by witnesses and counterexamples -/

/-- Media metadata of the example message event. -/
def mediaEx : ParsedMedia :=
  { type := "image", caption := "image cap", filename := "photo.jpg"
    mimeType := "image/jpeg", directPath := "/p/1", mediaKey := [1, 2, 3]
    fileSha256 := [4, 4], fileEncSha256 := [5, 5], fileLength := 1024 }

/-- An example parsed message carrying full media metadata. -/
def pmEx : ParsedMessage :=
  { id := "m1", chat := "15550001111@s.whatsapp.net"
    senderJid := "15550002222@s.whatsapp.net", pushName := "Bob"
    ts := 1000, fromMe := false, text := "hello", media := some mediaEx }

/-- An example stored message row with non-empty media metadata. -/
def rowEx : MessageRow :=
  { chatJid := "15550001111@s.whatsapp.net", chatName := "Alice"
    msgId := "m1", senderJid := "15550002222@s.whatsapp.net"
    senderName := "Bob", ts := 1000, fromMe := false, text := "hello"
    mediaType := "image", mediaCaption := "image cap"
    filename := "photo.jpg", mimeType := "image/jpeg", directPath := "/p/1"
    mediaKey := [1, 2, 3], fileSha256 := [4, 4], fileEncSha256 := [5, 5]
    fileLength := 1024, localPath := "", downloadedAt := 0 }

/-- Example upsert parameters whose media fields are all empty. -/
def emptyMediaParams : UpsertMessageParams :=
  { chatJid := "15550001111@s.whatsapp.net", chatName := "Alice"
    msgId := "m1", ts := 2000, fromMe := false, text := "" }

/-- A webhook config with signing enabled, for the C4 witness. -/
def wSigCfg : WebhookConfig :=
  { url := "https://example.invalid/hook", secret := "k"
    maxRetries := 3, timeoutSecs := 10 }

/-- A stand-in HMAC-SHA256 for witnesses (the real primitive lives in Go's
crypto library and is a parameter of the embedding). -/
def wHmac : String → Bytes → Bytes := fun _ _ => [0, 171, 255]

/-- The payload bytes used by the C4 witness. -/
def wPayload : Bytes := [1, 2]

/-- The webhook event filling the queue in the C5 witness. -/
def wEv0 : WebhookEvent :=
  { type := "message.received", timestampSec := 0, data := "payload" }

/-- The event offered to the full queue in the C5 witness. -/
def wEv1 : WebhookEvent :=
  { type := "message.received", timestampSec := 1, data := "payload" }

/-- A queue already at capacity, for the C5 witness. -/
def wFullQueue : List WebhookEvent := List.replicate queueCapacity wEv0

/-- The per-attempt HTTP outcomes of the C3 witness: 500 on the first
attempt, 200 on the retry. -/
def wResp : Nat → Option Nat := fun i => if i = 1 then some 200 else some 500

/-- Example media metadata rows for the C6/C7 witnesses. -/
def wInfoDownloaded : MediaDownloadInfo :=
  { chatJid := "15550001111@s.whatsapp.net", chatName := "Alice", msgId := "m1"
    mediaType := "image", filename := "photo.jpg", mimeType := "image/jpeg"
    directPath := "/p/1", mediaKey := [1, 2, 3], fileSha256 := [4, 4]
    fileEncSha256 := [5, 5], fileLength := 1024
    localPath := "/data/media/15550001111@s.whatsapp.net/photo.jpg"
    downloadedAt := 3000 }

/-- The same metadata before any download (`local_path` empty). -/
def wInfoFresh : MediaDownloadInfo :=
  { wInfoDownloaded with localPath := "", downloadedAt := 0 }

/-- The contact exhibiting the display-name divergence of C9: no alias, an
empty full name, a push name present. -/
def c9Contact : ContactRow :=
  { jid := "15551234567@s.whatsapp.net", phone := "15551234567"
    pushName := "John", fullName := "", firstName := "", businessName := "" }

end WaSvc

namespace WaSvc

/-- The number of attempts made never exceeds the remaining iteration count. -/
theorem deliverLoop_attempts_le (resp : Nat → Option Nat) :
    ∀ remaining attempt, (deliverLoop resp remaining attempt).2.1 ≤ remaining := by
  intro remaining
  induction remaining with
  | zero => intro attempt; simp [deliverLoop]
  | succ r ih =>
    intro attempt
    simp only [deliverLoop]
    split
    · simp
    · have := ih (attempt + 1)
      simpa using Nat.succ_le_succ this

/-- Starting from a positive attempt number, the sleeps performed are exactly
one backoff per attempt made. -/
theorem deliverLoop_sleeps (resp : Nat → Option Nat) :
    ∀ remaining attempt, 1 ≤ attempt →
      (deliverLoop resp remaining attempt).2.2 =
        (List.range (deliverLoop resp remaining attempt).2.1).map
          (fun i => backoffSecs (attempt + i)) := by
  intro remaining
  induction remaining with
  | zero => intro a _; simp [deliverLoop]
  | succ r ih =>
    intro a ha
    have hne : a ≠ 0 := by omega
    simp only [deliverLoop]
    split
    · have h1 : List.range 1 = [0] := rfl
      simp [hne, h1]
    · have h := ih (a + 1) (by omega)
      simp only [hne, if_false, List.cons_append, List.nil_append]
      rw [h, List.range_succ_eq_map, List.map_cons, List.map_map]
      refine List.cons_eq_cons.mpr ⟨by simp, ?_⟩
      induction (deliverLoop resp r (a + 1)).2.1 with
      | zero => simp
      | succ n ihn =>
        rw [List.range_succ, List.map_append, List.map_append, ihn]
        refine congrArg _ ?_
        simp only [List.map_cons, List.map_nil, Function.comp]
        refine List.cons_eq_cons.mpr ⟨?_, rfl⟩
        have : a + 1 + n = a + (n + 1) := by omega
        rw [this]

/-- When every attempt in range fails, the loop exhausts all iterations and
reports failure. -/
theorem deliverLoop_all_fail (resp : Nat → Option Nat) :
    ∀ remaining attempt,
      (∀ i, i < remaining → respOk (resp (attempt + i)) = false) →
      (deliverLoop resp remaining attempt).1 = false ∧
        (deliverLoop resp remaining attempt).2.1 = remaining := by
  intro remaining
  induction remaining with
  | zero => intro a _; simp [deliverLoop]
  | succ r ih =>
    intro a h
    have h0 : respOk (resp a) = false := by simpa using h 0 (by omega)
    have hrec := ih (a + 1) (fun i hi => by
      have := h (i + 1) (by omega)
      have harg : a + (i + 1) = a + 1 + i := by omega
      rwa [harg] at this)
    simp only [deliverLoop, h0]
    simp [hrec.1, hrec.2]

/-- The first successful attempt stops the loop, with `j + 1` attempts made
when attempts `0 .. j-1` failed and attempt `j` succeeded. -/
theorem deliverLoop_first_success (resp : Nat → Option Nat) :
    ∀ j remaining attempt, j < remaining →
      (∀ i, i < j → respOk (resp (attempt + i)) = false) →
      respOk (resp (attempt + j)) = true →
      (deliverLoop resp remaining attempt).1 = true ∧
        (deliverLoop resp remaining attempt).2.1 = j + 1 := by
  intro j
  induction j with
  | zero =>
    intro r a hr _ hok
    obtain ⟨r', rfl⟩ : ∃ r', r = r' + 1 := ⟨r - 1, by omega⟩
    have : respOk (resp a) = true := by simpa using hok
    simp [deliverLoop, this]
  | succ j ih =>
    intro r a hr hfail hok
    obtain ⟨r', rfl⟩ : ∃ r', r = r' + 1 := ⟨r - 1, by omega⟩
    have h0 : respOk (resp a) = false := by simpa using hfail 0 (by omega)
    have hok' : respOk (resp (a + 1 + j)) = true := by
      have harg : a + (j + 1) = a + 1 + j := by omega
      rwa [harg] at hok
    have hfail' : ∀ i, i < j → respOk (resp (a + 1 + i)) = false := by
      intro i hi
      have := hfail (i + 1) (by omega)
      have harg : a + (i + 1) = a + 1 + i := by omega
      rwa [harg] at this
    have hrec := ih r' (a + 1) (by omega) hfail' hok'
    simp only [deliverLoop, h0]
    simp [hrec.1, hrec.2]

/-- The backoff is `min (2^(k-1)) 30` seconds. -/
theorem backoffSecs_eq_min (k : Nat) : backoffSecs k = min (2 ^ (k - 1)) 30 := by
  simp only [backoffSecs]
  rcases le_or_lt (2 ^ (k - 1)) 30 with h | h
  · rw [if_neg (by omega), Nat.min_eq_left h]
  · rw [if_pos h, Nat.min_eq_right (by omega)]

/-- Rewriting the sleep schedule through the min form. -/
theorem map_backoff_min (n : Nat) :
    (List.range n).map (fun i => backoffSecs (1 + i)) =
      (List.range n).map (fun i => min (2 ^ i) 30) := by
  induction n with
  | zero => simp
  | succ m ih =>
    rw [List.range_succ, List.map_append, List.map_append, ih]
    refine congrArg _ ?_
    simp only [List.map_cons, List.map_nil]
    refine List.cons_eq_cons.mpr ⟨?_, rfl⟩
    rw [backoffSecs_eq_min]
    have : 1 + m - 1 = m := by omega
    rw [this]

/-- Every character of `hexDigit` output belongs to the lowercase alphabet. -/
theorem hexDigit_mem (n : Nat) : hexDigit n ∈ hexDigitChars := by
  by_cases h : n < 16
  · interval_cases n <;> decide
  · have hlen : hexDigitChars.length ≤ n := by
      simp only [hexDigitChars, List.length]
      omega
    rw [hexDigit, List.getD_eq_default _ _ hlen]
    decide

/-- Every character of the hex stream is a lowercase hex digit. -/
theorem hexEncodeList_chars (bs : Bytes) :
    ∀ c ∈ hexEncodeList bs, c ∈ hexDigitChars := by
  induction bs with
  | nil => intro c hc; simp [hexEncodeList] at hc
  | cons b rest ih =>
    intro c hc
    have hc' : c = hexDigit (b / 16) ∨ c = hexDigit (b % 16) ∨
        c ∈ hexEncodeList rest := by
      simpa [hexEncodeList, List.mem_cons] using hc
    rcases hc' with h | h | h
    · exact h ▸ hexDigit_mem (b / 16)
    · exact h ▸ hexDigit_mem (b % 16)
    · exact ih c h

/-- Every character of a hex encoding is a lowercase hex digit. -/
theorem hexEncode_chars (bs : Bytes) :
    ∀ c ∈ (hexEncode bs).data, c ∈ hexDigitChars := by
  intro c hc
  exact hexEncodeList_chars bs c hc

/-- C10: every transition to a state other than pairing (`SetState`, and
`SetError` which targets the error state) clears the stored QR code;
`SetQRCode` stores the code and sets the state to pairing in one step;
`QRCode` reads as empty whenever the state is not pairing; and the invariant
"non-empty QR code implies pairing" is preserved by every state-machine
operation. -/
theorem qr_pairing_invariant (sm : StateMachine) (s : ServiceState)
    (code err : String) :
    (s ≠ ServiceState.pairing → (sm.SetState s).qrCode = "") ∧
    ((sm.SetError err).qrCode = "") ∧
    ((sm.SetQRCode code).state = ServiceState.pairing ∧
      (sm.SetQRCode code).qrCode = code) ∧
    (sm.state ≠ ServiceState.pairing → sm.QRCodeGet = "") ∧
    (qrInv sm →
      qrInv (sm.SetState s) ∧ qrInv (sm.SetError err) ∧
      qrInv (sm.SetQRCode code) ∧ qrInv sm.ClearQRCode) := by
  refine ⟨?_, ?_, ⟨rfl, rfl⟩, ?_, ?_⟩
  · intro hs
    simp [StateMachine.SetState, hs]
  · rfl
  · intro hs
    simp [StateMachine.QRCodeGet, hs]
  · intro _
    refine ⟨?_, ?_, ?_, ?_⟩
    · intro h
      by_cases hs : s = ServiceState.pairing
      · simpa [StateMachine.SetState] using hs
      · simp [StateMachine.SetState, hs] at h
    · intro h
      simp [StateMachine.SetError] at h
    · intro _
      rfl
    · intro h
      simp [StateMachine.ClearQRCode] at h

/-- C10 witness: the invariant statements evaluated at a concrete state
machine, transition target, QR payload and error. -/
theorem qr_pairing_invariant_witness :
    (ServiceState.connected ≠ ServiceState.pairing →
      ((StateMachine.new.SetQRCode "QR1").SetState ServiceState.connected).qrCode = "") ∧
    (((StateMachine.new.SetQRCode "QR1").SetError "boom").qrCode = "") ∧
    (((StateMachine.new.SetQRCode "QR1").SetQRCode "QR2").state = ServiceState.pairing ∧
      ((StateMachine.new.SetQRCode "QR1").SetQRCode "QR2").qrCode = "QR2") ∧
    ((StateMachine.new.SetQRCode "QR1").state ≠ ServiceState.pairing →
      (StateMachine.new.SetQRCode "QR1").QRCodeGet = "") ∧
    (qrInv (StateMachine.new.SetQRCode "QR1") →
      qrInv ((StateMachine.new.SetQRCode "QR1").SetState ServiceState.connected) ∧
      qrInv ((StateMachine.new.SetQRCode "QR1").SetError "boom") ∧
      qrInv ((StateMachine.new.SetQRCode "QR1").SetQRCode "QR2") ∧
      qrInv (StateMachine.new.SetQRCode "QR1").ClearQRCode) :=
  qr_pairing_invariant (StateMachine.new.SetQRCode "QR1") ServiceState.connected
    "QR2" "boom"

/-- Keeping-or-replacing a string media field never turns a non-empty stored
value empty. -/
theorem mergeStr_keep (old new : String) :
    (new = "" → mergeStr old new = old) ∧
      (old ≠ "" → mergeStr old new ≠ "") := by
  constructor
  · intro h; simp [mergeStr, h]
  · intro h
    by_cases hn : new = ""
    · simpa [mergeStr, hn] using h
    · simp [mergeStr, hn]

/-- Keeping-or-replacing a BLOB media field never turns a non-empty stored
value empty. -/
theorem mergeBytes_keep (old new : Bytes) :
    (new = [] → mergeBytes old new = old) ∧
      (old ≠ [] → mergeBytes old new ≠ []) := by
  constructor
  · intro h; simp [mergeBytes, h]
  · intro h
    by_cases hn : new = []
    · simpa [mergeBytes, hn] using h
    · simp [mergeBytes, hn]

/-- Keeping-or-replacing the byte length never turns a non-zero stored value
zero. -/
theorem mergeLen_keep (old new : Nat) :
    (new = 0 → mergeLen old new = old) ∧
      (old ≠ 0 → mergeLen old new ≠ 0) := by
  constructor
  · intro h; simp [mergeLen, h]
  · intro h
    by_cases hn : new = 0
    · simpa [mergeLen, hn] using h
    · simp [mergeLen, hn]

/-- C2: on an upsert of an existing message row, every media metadata field
whose incoming value is empty or zero-length keeps its stored value, and a
previously non-empty media metadata field is never overwritten with empty
(invariant I6), field by field: kind, caption, filename, MIME type, direct
path, media key, both hashes, byte length. -/
theorem upsert_media_invariant (old : MessageRow) (p : UpsertMessageParams) :
    ((p.mediaType = "" → (updateRow old p).mediaType = old.mediaType) ∧
      (old.mediaType ≠ "" → (updateRow old p).mediaType ≠ "")) ∧
    ((p.mediaCaption = "" → (updateRow old p).mediaCaption = old.mediaCaption) ∧
      (old.mediaCaption ≠ "" → (updateRow old p).mediaCaption ≠ "")) ∧
    ((p.filename = "" → (updateRow old p).filename = old.filename) ∧
      (old.filename ≠ "" → (updateRow old p).filename ≠ "")) ∧
    ((p.mimeType = "" → (updateRow old p).mimeType = old.mimeType) ∧
      (old.mimeType ≠ "" → (updateRow old p).mimeType ≠ "")) ∧
    ((p.directPath = "" → (updateRow old p).directPath = old.directPath) ∧
      (old.directPath ≠ "" → (updateRow old p).directPath ≠ "")) ∧
    ((p.mediaKey = [] → (updateRow old p).mediaKey = old.mediaKey) ∧
      (old.mediaKey ≠ [] → (updateRow old p).mediaKey ≠ [])) ∧
    ((p.fileSha256 = [] → (updateRow old p).fileSha256 = old.fileSha256) ∧
      (old.fileSha256 ≠ [] → (updateRow old p).fileSha256 ≠ [])) ∧
    ((p.fileEncSha256 = [] → (updateRow old p).fileEncSha256 = old.fileEncSha256) ∧
      (old.fileEncSha256 ≠ [] → (updateRow old p).fileEncSha256 ≠ [])) ∧
    ((p.fileLength = 0 → (updateRow old p).fileLength = old.fileLength) ∧
      (old.fileLength ≠ 0 → (updateRow old p).fileLength ≠ 0)) :=
  ⟨mergeStr_keep old.mediaType p.mediaType,
   mergeStr_keep old.mediaCaption p.mediaCaption,
   mergeStr_keep old.filename p.filename,
   mergeStr_keep old.mimeType p.mimeType,
   mergeStr_keep old.directPath p.directPath,
   mergeBytes_keep old.mediaKey p.mediaKey,
   mergeBytes_keep old.fileSha256 p.fileSha256,
   mergeBytes_keep old.fileEncSha256 p.fileEncSha256,
   mergeLen_keep old.fileLength p.fileLength⟩

/-- C2 witness: an all-empty-media upsert against the example stored row
keeps the media key and leaves the direct path non-empty. -/
theorem upsert_media_invariant_witness :
    (updateRow rowEx emptyMediaParams).mediaKey = rowEx.mediaKey ∧
      (updateRow rowEx emptyMediaParams).directPath ≠ "" ∧
      (updateRow rowEx emptyMediaParams).fileLength ≠ 0 :=
  ⟨(upsert_media_invariant rowEx emptyMediaParams).2.2.2.2.2.1.1 rfl,
   (upsert_media_invariant rowEx emptyMediaParams).2.2.2.2.1.2 (by decide),
   (upsert_media_invariant rowEx emptyMediaParams).2.2.2.2.2.2.2.2.2 (by decide)⟩

/-- C1, evaluation at the failing input (code bug): for the example live
message event carrying full media metadata, the row written by
`handleIncomingMessage` has empty direct path, media key, caption, hashes
and byte length although the event's values are non-empty, and the
history-sync path differs from the live path by dropping even the media
kind. -/
theorem ingest_drops_media_metadata :
    (upsertMessage none (liveUpsertParams pmEx "Alice")).directPath = "" ∧
    (upsertMessage none (liveUpsertParams pmEx "Alice")).mediaKey = [] ∧
    (upsertMessage none (liveUpsertParams pmEx "Alice")).mediaCaption = "" ∧
    (upsertMessage none (liveUpsertParams pmEx "Alice")).fileSha256 = [] ∧
    (upsertMessage none (liveUpsertParams pmEx "Alice")).fileEncSha256 = [] ∧
    (upsertMessage none (liveUpsertParams pmEx "Alice")).fileLength = 0 ∧
    (upsertMessage none (liveUpsertParams pmEx "Alice")).mediaType = "image" ∧
    (upsertMessage none (historyUpsertParams pmEx "Alice")).mediaType = "" ∧
    mediaEx.directPath ≠ "" ∧ mediaEx.mediaKey ≠ [] ∧ mediaEx.fileLength ≠ 0 :=
  ⟨rfl, rfl, rfl, rfl, rfl, rfl, rfl, rfl, by decide, by decide, by decide⟩

/-- C3: the delivery loop makes one initial attempt and at most
`maxRetries` retries; the sleeps performed are exactly
`min (2^(k-1)) 30` seconds before the k-th retry; exhausting every attempt
drops the event after `maxRetries + 1` attempts; and a 2xx response at the
first succeeding attempt stops the loop there. -/
theorem webhook_retry_policy (resp : Nat → Option Nat) (maxRetries : Nat) :
    (deliver resp maxRetries).2.1 ≤ maxRetries + 1 ∧
    (deliver resp maxRetries).2.2 =
      (List.range ((deliver resp maxRetries).2.1 - 1)).map
        (fun i => min (2 ^ i) 30) ∧
    ((∀ i, i ≤ maxRetries → respOk (resp i) = false) →
      (deliver resp maxRetries).1 = false ∧
        (deliver resp maxRetries).2.1 = maxRetries + 1) ∧
    (∀ j, j ≤ maxRetries → (∀ i, i < j → respOk (resp i) = false) →
      respOk (resp j) = true →
      (deliver resp maxRetries).1 = true ∧
        (deliver resp maxRetries).2.1 = j + 1) := by
  refine ⟨deliverLoop_attempts_le resp (maxRetries + 1) 0, ?_, ?_, ?_⟩
  · by_cases h0 : respOk (resp 0) = true
    · have hunfold : deliver resp maxRetries = (true, 1, ([] : List Nat)) := by
        simp [deliver, deliverLoop, h0]
      rw [hunfold]
      simp
    · have hunfold : deliver resp maxRetries =
          ((deliverLoop resp maxRetries 1).1,
           (deliverLoop resp maxRetries 1).2.1 + 1,
           (deliverLoop resp maxRetries 1).2.2) := by
        simp [deliver, deliverLoop, h0]
      rw [hunfold]
      show (deliverLoop resp maxRetries 1).2.2 =
        (List.range ((deliverLoop resp maxRetries 1).2.1 + 1 - 1)).map
          (fun i => min (2 ^ i) 30)
      rw [Nat.add_sub_cancel, deliverLoop_sleeps resp maxRetries 1 (le_refl 1)]
      exact map_backoff_min _
  · intro h
    exact deliverLoop_all_fail resp (maxRetries + 1) 0
      (fun i hi => by simpa using h i (by omega))
  · intro j hj hfail hok
    exact deliverLoop_first_success resp j (maxRetries + 1) 0 (by omega)
      (fun i hi => by simpa using hfail i hi) (by simpa using hok)

/-- C3 witness: with `max_retries = 3` and a 500 on the first attempt
followed by a 200 on the first retry, the event is delivered on attempt 2
after a single 1-second sleep. -/
theorem webhook_retry_policy_witness :
    (deliver wResp 3).1 = true ∧ (deliver wResp 3).2.1 = 2 ∧
      (deliver wResp 3).2.2 = [1] := by
  have h := webhook_retry_policy wResp 3
  have h1 := h.2.2.2 1 (by decide) (by decide) (by decide)
  refine ⟨h1.1, h1.2, ?_⟩
  have h2 := h.2.1
  rw [h1.2] at h2
  simpa using h2

/-- C4: the `X-Webhook-Signature` header of a delivered request is present
iff the shared secret is non-empty; the request body is exactly the payload
bytes; when present the header equals `"sha256="` followed by the hex
HMAC-SHA256, keyed by the secret, of exactly the body bytes sent; and every
character of the hex encoding is a lowercase hex digit. -/
theorem webhook_signature (hmacSha256 : String → Bytes → Bytes)
    (cfg : WebhookConfig) (payload : Bytes) :
    ((sendRequest hmacSha256 cfg payload).signature.isSome ↔ cfg.secret ≠ "") ∧
    (sendRequest hmacSha256 cfg payload).body = payload ∧
    (cfg.secret ≠ "" →
      (sendRequest hmacSha256 cfg payload).signature =
        some ("sha256=" ++
          hexEncode (hmacSha256 cfg.secret (sendRequest hmacSha256 cfg payload).body))) ∧
    ((hexEncode (hmacSha256 cfg.secret payload)).data.all
        (fun c => decide (c ∈ hexDigitChars)) = true) := by
  refine ⟨?_, rfl, ?_, ?_⟩
  · by_cases h : cfg.secret = "" <;> simp [sendRequest, h]
  · intro h
    simp [sendRequest, h, computeHMAC]
  · rw [List.all_eq_true]
    intro c hc
    exact decide_eq_true (hexEncode_chars _ c hc)

/-- C4 witness: with secret `"k"`, the example request carries exactly the
payload as body and the signature header computed over those bytes. -/
theorem webhook_signature_witness :
    (sendRequest wHmac wSigCfg wPayload).body = wPayload ∧
      (sendRequest wHmac wSigCfg wPayload).signature =
        some ("sha256=" ++
          hexEncode (wHmac wSigCfg.secret (sendRequest wHmac wSigCfg wPayload).body)) := by
  have h := webhook_signature wHmac wSigCfg wPayload
  exact ⟨h.2.1, h.2.2.1 (by decide)⟩

/-- C5: offering an event to a queue already at capacity leaves the queue
unchanged (no pending event duplicated or removed) and reports the event
dropped; the call is a total function and returns to the caller. -/
theorem emit_full_queue_drops (cfg : WebhookConfig) (queue : List WebhookEvent)
    (ev : WebhookEvent) (hfull : queue.length = queueCapacity)
    (hurl : cfg.url ≠ "") :
    (Emit cfg queue ev).1 = queue ∧ (Emit cfg queue ev).2 = true ∧
      ∀ e, (Emit cfg queue ev).1.count e = queue.count e := by
  have hnot : ¬ queue.length < queueCapacity := by omega
  refine ⟨?_, ?_, ?_⟩ <;> simp [Emit, hurl, hnot]

/-- C5 witness: a queue of 1000 pending events is unchanged by an emit, the
new event is dropped, and the multiplicity of the queued event stays 1000. -/
theorem emit_full_queue_drops_witness :
    (Emit wSigCfg wFullQueue wEv1).1 = wFullQueue ∧
      (Emit wSigCfg wFullQueue wEv1).2 = true ∧
      (Emit wSigCfg wFullQueue wEv1).1.count wEv0 = wFullQueue.count wEv0 := by
  have h := emit_full_queue_drops wSigCfg wFullQueue wEv1
    (by simp [wFullQueue]) (by decide)
  exact ⟨h.1, h.2.1, h.2.2 wEv0⟩

/-- C6: the ready predicate holds exactly in the connected state, and each
send-style operation (send text, send file, download media) invoked while
not ready returns the not-ready failure with an empty effect trace — no
protocol-client call and no store write. -/
theorem ready_gate (s : ServiceState) (clientOpen : Bool)
    (resolved : Option String) (sendResult : Option String) (text : String)
    (uploadOk : Bool) (sendResult2 : Option String)
    (lookup : Option MediaDownloadInfo) (targetPath : String)
    (downloadBytes : Option Nat) (now : Nat) :
    (s.IsReady = true ↔ s = ServiceState.connected) ∧
    (s.IsReady = false →
      sendText s clientOpen resolved sendResult text =
        (Except.error (MgrErr.notReady s), []) ∧
      sendFile s clientOpen resolved uploadOk sendResult2 =
        (Except.error (MgrErr.notReady s), []) ∧
      downloadMedia s clientOpen lookup targetPath downloadBytes now =
        (Except.error (MgrErr.notReady s), [])) := by
  constructor
  · cases s <;> decide
  · intro h
    refine ⟨?_, ?_, ?_⟩ <;> simp [sendText, sendFile, downloadMedia, h]

/-- C6 witness: in the connecting state, all three operations reject with
the not-ready failure and empty effect traces. -/
theorem ready_gate_witness :
    sendText ServiceState.connecting true
        (some "15550001111@s.whatsapp.net") (some "id") "hi" =
      (Except.error (MgrErr.notReady ServiceState.connecting), []) ∧
    sendFile ServiceState.connecting true
        (some "15550001111@s.whatsapp.net") true (some "id2") =
      (Except.error (MgrErr.notReady ServiceState.connecting), []) ∧
    downloadMedia ServiceState.connecting true (some wInfoFresh) "/tmp/t"
        (some 10) 99 =
      (Except.error (MgrErr.notReady ServiceState.connecting), []) := by
  have h := ready_gate ServiceState.connecting true
    (some "15550001111@s.whatsapp.net") (some "id") "hi" true (some "id2")
    (some wInfoFresh) "/tmp/t" (some 10) 99
  exact h.2 (by decide)

/-- C7: for downloadable media, a row whose `local_path` is already set is
returned unchanged with no client download call; when `local_path` is
empty a successful download returns the target path, performing the client
download and then the mark-downloaded store write, which sets `local_path`
and `downloaded_at` on the row; and a second call against the updated
metadata returns the same path with no further client call. -/
theorem download_media_behaviour (info : MediaDownloadInfo) (row : MessageRow)
    (targetPath : String) (dl : Option Nat) (n now : Nat)
    (hmt : info.mediaType ≠ "") (hdp : info.directPath ≠ "")
    (hmk : info.mediaKey ≠ []) :
    (info.localPath ≠ "" →
      downloadMedia ServiceState.connected true (some info) targetPath dl now =
        (Except.ok
          { chatJid := info.chatJid, msgId := info.msgId
            mediaType := info.mediaType, mimeType := info.mimeType
            localPath := info.localPath, byteCount := info.fileLength
            downloadedAt := info.downloadedAt }, [])) ∧
    (info.localPath = "" →
      downloadMedia ServiceState.connected true (some info) targetPath
          (some n) now =
        (Except.ok
          { chatJid := info.chatJid, msgId := info.msgId
            mediaType := info.mediaType, mimeType := info.mimeType
            localPath := targetPath, byteCount := n, downloadedAt := now },
         [MgrEffect.clientDownload targetPath,
          MgrEffect.storeMarkDownloaded info.chatJid info.msgId targetPath now])) ∧
    ((markMediaDownloaded row targetPath now).localPath = targetPath ∧
      (markMediaDownloaded row targetPath now).downloadedAt = now) ∧
    (targetPath ≠ "" →
      downloadMedia ServiceState.connected true
          (some { info with localPath := targetPath, downloadedAt := now })
          targetPath dl now =
        (Except.ok
          { chatJid := info.chatJid, msgId := info.msgId
            mediaType := info.mediaType, mimeType := info.mimeType
            localPath := targetPath, byteCount := info.fileLength
            downloadedAt := now }, [])) := by
  refine ⟨?_, ?_, ⟨rfl, rfl⟩, ?_⟩
  · intro hlp
    simp [downloadMedia, ServiceState.IsReady, hmt, hdp, hmk, hlp]
  · intro hlp
    simp [downloadMedia, ServiceState.IsReady, hmt, hdp, hmk, hlp]
  · intro htp
    simp [downloadMedia, ServiceState.IsReady, hmt, hdp, hmk, htp]

/-- C7 witness: the already-downloaded example row is returned as-is with no
effects; the fresh example row is downloaded to the target path with the
download and mark-downloaded effects; marking sets the row fields. -/
theorem download_media_behaviour_witness :
    downloadMedia ServiceState.connected true (some wInfoDownloaded) "/tmp/t"
        none 99 =
      (Except.ok
        { chatJid := wInfoDownloaded.chatJid, msgId := wInfoDownloaded.msgId
          mediaType := wInfoDownloaded.mediaType
          mimeType := wInfoDownloaded.mimeType
          localPath := wInfoDownloaded.localPath
          byteCount := wInfoDownloaded.fileLength
          downloadedAt := wInfoDownloaded.downloadedAt }, []) ∧
    downloadMedia ServiceState.connected true (some wInfoFresh) "/tmp/t"
        (some 1024) 99 =
      (Except.ok
        { chatJid := wInfoFresh.chatJid, msgId := wInfoFresh.msgId
          mediaType := wInfoFresh.mediaType, mimeType := wInfoFresh.mimeType
          localPath := "/tmp/t", byteCount := 1024, downloadedAt := 99 },
       [MgrEffect.clientDownload "/tmp/t",
        MgrEffect.storeMarkDownloaded wInfoFresh.chatJid wInfoFresh.msgId
          "/tmp/t" 99]) ∧
    (markMediaDownloaded rowEx "/tmp/t" 99).localPath = "/tmp/t" ∧
    downloadMedia ServiceState.connected true
        (some { wInfoFresh with localPath := "/tmp/t", downloadedAt := 99 })
        "/tmp/t" none 99 =
      (Except.ok
        { chatJid := wInfoFresh.chatJid, msgId := wInfoFresh.msgId
          mediaType := wInfoFresh.mediaType, mimeType := wInfoFresh.mimeType
          localPath := "/tmp/t", byteCount := wInfoFresh.fileLength
          downloadedAt := 99 }, []) := by
  have h1 := download_media_behaviour wInfoDownloaded rowEx "/tmp/t" none 0 99
    (by decide) (by decide) (by decide)
  have h2 := download_media_behaviour wInfoFresh rowEx "/tmp/t" none 1024 99
    (by decide) (by decide) (by decide)
  exact ⟨h1.1 (by decide), h2.2.1 rfl, (h2.2.2.1).1, h2.2.2.2 (by decide)⟩

/-- C8, evaluation at the failing input (code bug): the sync worker's event
handler reacts to a `Disconnected` event only by setting the state to
disconnected — it does not transition to connecting and performs no
reconnection attempt (no client re-invocation, no backoff), from any prior
state including connected. -/
theorem disconnected_no_reconnect (sm : StateMachine) :
    syncWorkerStep sm WAEvent.disconnected =
      (sm.SetState ServiceState.disconnected, []) ∧
    (syncWorkerStep sm WAEvent.disconnected).1.state =
      ServiceState.disconnected ∧
    (syncWorkerStep sm WAEvent.disconnected).1.state ≠
      ServiceState.connecting ∧
    SyncAction.reconnectAttempt ∉ (syncWorkerStep sm WAEvent.disconnected).2 := by
  refine ⟨rfl, rfl, ?_, ?_⟩
  · show ServiceState.disconnected ≠ ServiceState.connecting
    decide
  · show SyncAction.reconnectAttempt ∉ ([] : List SyncAction)
    simp

/-- C9, evaluation at the failing input (code bug): for a contact with no
alias, an empty full name and push name "John", the Contact Search query's
display name is the empty string, while the documented/specified
name-resolution order yields "John"; the two disagree. -/
theorem contact_display_divergence :
    contactSearchDisplayName none c9Contact = "" ∧
    c9Contact.pushName = "John" ∧
    displayNameSpec none c9Contact = "John" ∧
    contactSearchDisplayName none c9Contact ≠ displayNameSpec none c9Contact := by
  refine ⟨rfl, rfl, rfl, ?_⟩
  decide

end WaSvc
